import Mathlib

/-!
Shallow embedding of `peer/entity/forms.py` (entity and metadata edit forms).

The file under verification is Django form glue: entity name/domain
validation (`EditEntityForm.clean`, `EntityForm.clean`) and the metadata
submission pipeline (`BaseMetadataEditForm._clean_metadata_field` with the
three subclasses for pasted text, uploaded file and remote URL, the latter
with `_field_value_to_metadata` / `_fetch_metadata`).

External collaborators (the network, Python's codec machinery, the
`validate(entity, metadata, user)` function, the entity's stored revision)
are modelled as parameters of the embedded functions.  Python strings are
Lean `String`s; Python truthiness of a string is `s ≠ ""`.
-/

set_option autoImplicit false

namespace Peer

/-- `CONNECTION_TIMEOUT = 10` from `forms.py`. -/
def CONNECTION_TIMEOUT : Nat := 10

/-- Python `str.strip()` whitespace predicate (space, tab, newline,
carriage return, vertical tab, form feed). -/
def pyIsSpace (c : Char) : Bool :=
  c = ' ' || c = '\t' || c = '\n' || c = '\r' ||
  c = Char.ofNat 11 || c = Char.ofNat 12

/-- Python `str.strip()`: remove leading and trailing whitespace. -/
def pyStrip (s : String) : String :=
  String.mk (((s.data.dropWhile pyIsSpace).reverse.dropWhile pyIsSpace).reverse)

/-- Exceptions `urllib2.urlopen` can raise, as the except clauses of
`_fetch_metadata` distinguish them.  In `urllib2`, `HTTPError` is a
subclass of `URLError`; the constructor `urlError` stands for a
`URLError` that is not an `HTTPError`, and `other` for any exception of
neither class. -/
inductive PyExc where
  | httpError (msg : String)
  | urlError (msg : String)
  | other
  deriving DecidableEq, Repr

/-- Python `isinstance(e, urllib2.URLError)`: true for `HTTPError` too,
since `HTTPError` subclasses `URLError`. -/
def isURLError : PyExc → Bool
  | .httpError _ => true
  | .urlError _ => true
  | .other => false

/-- Python `isinstance(e, urllib2.HTTPError)`. -/
def isHTTPError : PyExc → Bool
  | .httpError _ => true
  | _ => false

/-- `str(e)` for the exceptions above. -/
def excStr : PyExc → String
  | .httpError m => m
  | .urlError m => m
  | .other => ""

/-- The response object `urllib2.urlopen` returns: `getcode()`, the
`content-type` header (`none` models a missing header, i.e. `KeyError` on
`resp.headers['content-type']`) and the raw body returned by `read()`. -/
structure HTTPResponse where
  code : Nat
  contentType : Option String
  body : String
  deriving DecidableEq, Repr

/-- Outcome of a `urllib2.urlopen(url, None, timeout)` call: either an
exception or a response object. -/
inductive NetOutcome where
  | raise (e : PyExc)
  | resp (r : HTTPResponse)
  deriving DecidableEq, Repr

/-- Result of `_fetch_metadata`: the returned text, `None` (a swallowed
general exception), a raised `forms.ValidationError`, or a raised
exception that is not a `ValidationError` and therefore escapes. -/
inductive FetchRes where
  | text (t : String)
  | retNone
  | vErr (msg : String)
  | exn
  deriving DecidableEq, Repr

/-- The except-clause dispatch of `_fetch_metadata`, in source order:
`except urllib2.URLError` first, `except urllib2.HTTPError` second, bare
`except` last.  The first clause whose class matches handles the
exception. -/
def handleUrlopenExc (e : PyExc) : FetchRes :=
  if isURLError e then .vErr ("URL Error: " ++ excStr e)
  else if isHTTPError e then .vErr ("HTTP Error: " ++ excStr e)
  else .retNone

/-- `lst.takeWhile`-style helper: the characters of `cs` before the next
occurrence of the substring `sep` (all of `cs` when `sep` does not
occur). -/
def beforeSub (sep : List Char) : List Char → List Char
  | [] => []
  | c :: cs => if sep.isPrefixOf (c :: cs) then [] else c :: beforeSub sep cs

/-- The characters after the first occurrence of the substring `sep`, or
`none` when `sep` does not occur. -/
def afterSub (sep : List Char) : List Char → Option (List Char)
  | [] => none
  | c :: cs =>
    if sep.isPrefixOf (c :: cs) then some (List.drop (sep.length - 1) cs)
    else afterSub sep cs

/-- Python `ct.split('charset=')[1]`: the segment of `ct` strictly between
the first and the second occurrence of `'charset='` (up to the end when
there is exactly one occurrence); `none` models the `IndexError` when
`'charset='` does not occur. -/
def parseCharset (ct : String) : Option String :=
  (afterSub "charset=".data ct.data).map (fun rest => String.mk (beforeSub "charset=".data rest))

/-- The inner `_fetch_metadata(url)` of
`MetadataRemoteEditForm._field_value_to_metadata`.

`net url timeout` models `urllib2.urlopen(url, None, timeout)`; the call
site passes `CONNECTION_TIMEOUT`.  `dec enc bytes` models Python
`bytes.decode(enc)`, `none` standing for a raised `LookupError` (unknown
encoding) or `UnicodeDecodeError`; neither is a `KeyError` or
`IndexError`, so in the source such a failure is not caught by the
`except (KeyError, IndexError)` clause and the exception escapes
(`FetchRes.exn`).  A missing `content-type` header is the `KeyError`
case and a header without `charset=` the `IndexError` case; both leave
the body raw. -/
def fetchMetadata (net : String → Nat → NetOutcome) (dec : String → String → Option String)
    (url : String) : FetchRes :=
  match net url CONNECTION_TIMEOUT with
  | .raise e => handleUrlopenExc e
  | .resp r =>
    if r.code ≠ 200 then .vErr ("Error in the response: " ++ toString r.code)
    else
      match r.contentType with
      | none => .text r.body
      | some ct =>
        match parseCharset ct with
        | none => .text r.body
        | some enc =>
          match dec enc r.body with
          | some t => .text t
          | none => .exn

/-- Result of a subclass's `_field_value_to_metadata`: the metadata
string, a raised `ValidationError`, or an escaping non-`ValidationError`
exception. -/
inductive ConvResult where
  | ok (metadata : String)
  | vErr (msg : String)
  | exn
  deriving DecidableEq, Repr

/-- `MetadataRemoteEditForm._field_value_to_metadata(remote_url)`: fetch
the URL; on `None` (a swallowed general error) retry once with
`'http://'` prepended; if the retry also yields `None`, raise
`ValidationError('Unknown error while fetching the url')`. -/
def fieldValueToMetadataRemote (net : String → Nat → NetOutcome)
    (dec : String → String → Option String) (remoteUrl : String) : ConvResult :=
  match fetchMetadata net dec remoteUrl with
  | .text t => .ok t
  | .vErr m => .vErr m
  | .exn => .exn
  | .retNone =>
    match fetchMetadata net dec ("http://" ++ remoteUrl) with
    | .text t => .ok t
    | .vErr m => .vErr m
    | .exn => .exn
    | .retNone => .vErr "Unknown error while fetching the url"

/-- The pieces of form state `_clean_metadata_field` mutates: whether the
field is still present in `form.cleaned_data`, the error list
`form._errors[fieldname]`, and `self.metadata`. -/
structure MetadataFormState where
  cleanedDataHasField : Bool
  fieldErrors : List String
  metadata : Option String
  deriving DecidableEq, Repr

/-- `BaseMetadataEditForm.get_metadata`. -/
def getMetadata (st : MetadataFormState) : Option String :=
  st.metadata

/-- Outcome of `_clean_metadata_field`: a raised `ValidationError`, an
escaping non-`ValidationError` exception, or a normal return carrying the
returned value together with the final form state.  `α` is the type of
the field value (`String` for the text/URL fields; for the file field we
use the file's contents, see `fileOps`). -/
inductive CleanResult (α : Type) where
  | vErr (msg : String)
  | exn
  | ok (ret : α) (st : MetadataFormState)
  deriving DecidableEq, Repr

/-- How `_clean_metadata_field` treats the raw field value: whether
`hasattr(data, 'strip')`, what `data.strip()` is, and Python truthiness
of `data`. -/
structure FieldOps (α : Type) where
  hasStrip : Bool
  strip : α → α
  truthy : α → Bool

/-- The `data` after the conditional `strip` at the top of
`_clean_metadata_field`. -/
def stripData {α : Type} (ops : FieldOps α) (fd : α) : α :=
  if ops.hasStrip then ops.strip fd else fd

/-- `BaseMetadataEditForm._clean_metadata_field(fieldname)`.

`rev` is `entity.metadata.get_revision()` (used by
`check_metadata_is_new`) and `validator` is the external
`validate(entity, metadata, user)` restricted to its metadata argument
(used by `check_metadata_is_valid`).  When the validator returns a
non-empty error list, `check_metadata_is_valid` stores it in
`form._errors[fieldname]` and deletes the field from `cleaned_data`
without raising; the function then still sets `self.metadata` and
returns `data`. -/
def cleanMetadataField {α : Type} (ops : FieldOps α) (conv : α → ConvResult)
    (rev : String) (validator : String → List String) (fd : α) : CleanResult α :=
  let data := stripData ops fd
  if ops.truthy data = false then .vErr "Empty metadata is not allowed"
  else
    match conv data with
    | .vErr m => .vErr m
    | .exn => .exn
    | .ok metadata =>
      if metadata = "" then .vErr "Empty metadata is not allowed"
      else if metadata = rev then .vErr "There are no changes in the metadata"
      else
        let errors := validator metadata
        if errors ≠ [] then .ok data ⟨false, errors, some metadata⟩
        else .ok data ⟨true, [], some metadata⟩

/-- Field operations for a string-valued field (`CharField`,
`URLField`): Python `str` has `strip`, and a string is truthy iff it is
non-empty. -/
def strOps : FieldOps String :=
  ⟨true, pyStrip, fun s => s ≠ ""⟩

/-- Field operations for the uploaded-file field, the file value
represented by its contents: a Django `UploadedFile` has no `strip`
attribute and is truthy (its `__nonzero__` is the truthiness of its
non-empty name), so the first emptiness check never fires for it. -/
def fileOps : FieldOps String :=
  ⟨false, id, fun _ => true⟩

/-- `MetadataTextEditForm.clean_metadata_text`: the base
`_field_value_to_metadata` returns the field value itself. -/
def cleanMetadataText (rev : String) (validator : String → List String)
    (s : String) : CleanResult String :=
  cleanMetadataField strOps (fun v => .ok v) rev validator s

/-- `MetadataFileEditForm.clean_metadata_file`, the uploaded file given
by its contents: `_field_value_to_metadata` is `fileobj.read()`. -/
def cleanMetadataFile (rev : String) (validator : String → List String)
    (contents : String) : CleanResult String :=
  cleanMetadataField fileOps (fun c => .ok c) rev validator contents

/-- `MetadataRemoteEditForm.clean_metadata_url`. -/
def cleanMetadataRemote (net : String → Nat → NetOutcome)
    (dec : String → String → Option String) (rev : String)
    (validator : String → List String) (url : String) : CleanResult String :=
  cleanMetadataField strOps (fieldValueToMetadataRemote net dec) rev validator url

/-- The reserved characters of `r'!:&\|'` iterated by
`EditEntityForm.clean` and `EntityForm.clean`. -/
def reservedChars : List Char :=
  ['!', ':', '&', '\\', '|']

/-- Whether the loop `for ch in r'!:&\|': if ch in name:` raises: some
reserved character occurs among the characters of `name`. -/
def illegalName (name : String) : Bool :=
  reservedChars.any (fun ch => name.data.contains ch)

/-- The message of the illegal-characters `ValidationError` in both
entity forms. -/
def illegalNameMsg : String :=
  "Illegal characters in the name: You cannot use &, |, !, : or \\"

/-- Outcome of a form-level `clean`: a raised `ValidationError`, an
escaping non-`ValidationError` exception, or a normal return of
`cleaned_data`. -/
inductive FormCleanResult where
  | vErr (msg : String)
  | exn
  | ok
  deriving DecidableEq, Repr

/-- `EditEntityForm.clean`: `cleaned_data.get('name')` is `none` when the
field did not validate; a falsy (empty) name skips the check. -/
def editEntityFormClean (name : Option String) : FormCleanResult :=
  match name with
  | some n => if n ≠ "" && illegalName n then .vErr illegalNameMsg else .ok
  | none => .ok

/-- `EntityForm.clean`.  `db` lists the `(name, domain)` pairs of
existing entities; `Entity.objects.get(name=name, domain=domain)` raises
`Entity.DoesNotExist` (caught, pass) on zero matches, returns on exactly
one (upon which the duplicate `ValidationError` is raised), and raises
`MultipleObjectsReturned` (uncaught) on two or more.  The checks run only
when both `name` and `domain` are truthy. -/
def entityFormClean (db : List (String × String)) (name : Option String)
    (domain : Option String) : FormCleanResult :=
  match name, domain with
  | some n, some d =>
    if n = "" then .ok
    else if illegalName n then .vErr illegalNameMsg
    else
      match (db.filter (fun p => p.1 = n && p.2 = d)).length with
      | 0 => .ok
      | 1 => .vErr "There is already an entity with that name for that domain"
      | _ => .exn
  | _, _ => .ok

/-- A name the reserved-character loop fires on is non-empty. -/
theorem illegalName_ne_empty {n : String} (h : illegalName n = true) : n ≠ "" := by
  intro he
  subst he
  simp [illegalName, reservedChars] at h

/-- C1: on a remote-URL submission, `_field_value_to_metadata` first
calls `urllib2.urlopen` on the given URL with timeout
`CONNECTION_TIMEOUT`; if that raises a general exception (neither a
`URLError` nor an `HTTPError`), it retries exactly once with `http://`
prepended and the overall result is exactly the handling of that single
retry; if the retry also fails generally the result is the
`ValidationError` `Unknown error while fetching the url`; a `URLError`
or `HTTPError` on the first attempt becomes a `ValidationError` at once,
whatever the network would answer on any retry. -/
theorem remote_fetch_retries_once_on_general_error
    (net : String → Nat → NetOutcome) (dec : String → String → Option String)
    (url : String) :
    (net url CONNECTION_TIMEOUT = NetOutcome.raise PyExc.other →
      fieldValueToMetadataRemote net dec url =
        (match fetchMetadata net dec ("http://" ++ url) with
         | FetchRes.text t => ConvResult.ok t
         | FetchRes.vErr m => ConvResult.vErr m
         | FetchRes.exn => ConvResult.exn
         | FetchRes.retNone => ConvResult.vErr "Unknown error while fetching the url")) ∧
    (net url CONNECTION_TIMEOUT = NetOutcome.raise PyExc.other →
     net ("http://" ++ url) CONNECTION_TIMEOUT = NetOutcome.raise PyExc.other →
      fieldValueToMetadataRemote net dec url =
        ConvResult.vErr "Unknown error while fetching the url") ∧
    (∀ e, isURLError e = true → net url CONNECTION_TIMEOUT = NetOutcome.raise e →
      fieldValueToMetadataRemote net dec url =
        ConvResult.vErr ("URL Error: " ++ excStr e)) ∧
    (∀ e, isHTTPError e = true → net url CONNECTION_TIMEOUT = NetOutcome.raise e →
      ∃ m, fieldValueToMetadataRemote net dec url = ConvResult.vErr m) := by
  refine ⟨?_, ?_, ?_, ?_⟩
  · intro h1
    simp [fieldValueToMetadataRemote, fetchMetadata, h1, handleUrlopenExc,
      isURLError, isHTTPError]
  · intro h1 h2
    simp [fieldValueToMetadataRemote, fetchMetadata, h1, h2, handleUrlopenExc,
      isURLError, isHTTPError]
  · intro e he h1
    simp [fieldValueToMetadataRemote, fetchMetadata, h1, handleUrlopenExc, he]
  · intro e he h1
    cases e with
    | httpError m =>
      exact ⟨"URL Error: " ++ m, by
        simp [fieldValueToMetadataRemote, fetchMetadata, h1, handleUrlopenExc,
          isURLError, excStr]⟩
    | urlError m => simp [isHTTPError] at he
    | other => simp [isHTTPError] at he

/-- Witness for C1: a network that always raises a general error makes
the submission fail with the unknown-error message after the single
retry. -/
theorem remote_fetch_retries_once_on_general_error_witness :
    fieldValueToMetadataRemote (fun _ _ => NetOutcome.raise PyExc.other)
        (fun _ s => some s) "example.org" =
      ConvResult.vErr "Unknown error while fetching the url" :=
  (remote_fetch_retries_once_on_general_error
    (fun _ _ => NetOutcome.raise PyExc.other) (fun _ s => some s) "example.org").2.1 rfl rfl

/-- C2 counterexample: an uploaded file whose contents are the
whitespace-only (but non-empty) string of three spaces, against current
revision `x` and a validator reporting no errors.  A file object has no
`strip` attribute and is truthy, and the Python truthiness test
`if not metadata` is false for a non-empty whitespace string, so
`_clean_metadata_field` returns normally instead of raising the
`Empty metadata is not allowed` `ValidationError` the claim promises for
whitespace-only metadata. -/
theorem whitespace_file_metadata_not_rejected :
    cleanMetadataFile "x" (fun _ => []) "   " =
        CleanResult.ok "   " ⟨true, [], some "   "⟩ ∧
    cleanMetadataFile "x" (fun _ => []) "   " ≠
        CleanResult.vErr "Empty metadata is not allowed" := by
  constructor
  · decide
  · decide

/-- C2 amended: metadata that is empty is always rejected with
`Empty metadata is not allowed`; whitespace-only metadata is rejected
only for the pasted-text form, whose field value is stripped before it
becomes the metadata; for a file upload, and for a remote fetch whose
fetched body is whitespace-only but non-empty, the content is never
rejected as empty. -/
theorem empty_metadata_rejected (rev : String) (validator : String → List String)
    (s c url : String) (net : String → Nat → NetOutcome)
    (dec : String → String → Option String) :
    (pyStrip s = "" →
      cleanMetadataText rev validator s = CleanResult.vErr "Empty metadata is not allowed") ∧
    (cleanMetadataFile rev validator "" = CleanResult.vErr "Empty metadata is not allowed") ∧
    (pyStrip url ≠ "" → fieldValueToMetadataRemote net dec (pyStrip url) = ConvResult.ok "" →
      cleanMetadataRemote net dec rev validator url =
        CleanResult.vErr "Empty metadata is not allowed") ∧
    (c ≠ "" →
      cleanMetadataFile rev validator c ≠ CleanResult.vErr "Empty metadata is not allowed") ∧
    (∀ w, w ≠ "" → pyStrip url ≠ "" →
      fieldValueToMetadataRemote net dec (pyStrip url) = ConvResult.ok w →
      cleanMetadataRemote net dec rev validator url ≠
        CleanResult.vErr "Empty metadata is not allowed") := by
  refine ⟨?_, ?_, ?_, ?_, ?_⟩
  · intro h
    simp [cleanMetadataText, cleanMetadataField, stripData, strOps, h]
  · simp [cleanMetadataFile, cleanMetadataField, stripData, fileOps]
  · intro h1 h2
    simp [cleanMetadataRemote, cleanMetadataField, stripData, strOps, h1, h2]
  · intro hc
    by_cases hrev : c = rev <;> by_cases hval : validator c = [] <;>
      simp [cleanMetadataFile, cleanMetadataField, stripData, fileOps, hc, hrev, hval]
    all_goals
      rw [← hrev]
      exact hc
  · intro w hw hu hconv
    by_cases hrev : w = rev <;> by_cases hval : validator w = [] <;>
      simp [cleanMetadataRemote, cleanMetadataField, stripData, strOps, hu, hconv,
        hw, hrev, hval]
    all_goals
      rw [← hrev]
      exact hw

/-- Witness for the amended C2: a pasted text of three spaces strips to
the empty string and is rejected as empty. -/
theorem empty_metadata_rejected_witness :
    cleanMetadataText "x" (fun _ => []) "   " =
      CleanResult.vErr "Empty metadata is not allowed" :=
  (empty_metadata_rejected "x" (fun _ => []) "   " "" ""
    (fun _ _ => NetOutcome.raise PyExc.other) (fun _ s => some s)).1 (by decide)

/-- C3: when the converted metadata equals the current revision
`entity.metadata.get_revision()` (non-empty, per the data-model
invariant that stored metadata content is never empty) and the field
value passed the initial truthiness check, `_clean_metadata_field`
raises the `ValidationError` `There are no changes in the metadata`
via `check_metadata_is_new`, for every subclass. -/
theorem unchanged_metadata_rejected {α : Type} (ops : FieldOps α)
    (conv : α → ConvResult) (rev : String) (validator : String → List String) (fd : α)
    (hdata : ops.truthy (stripData ops fd) = true)
    (hconv : conv (stripData ops fd) = ConvResult.ok rev)
    (hrev : rev ≠ "") :
    cleanMetadataField ops conv rev validator fd =
      CleanResult.vErr "There are no changes in the metadata" := by
  simp [cleanMetadataField, hdata, hconv, hrev]

/-- Witness for C3: pasting exactly the current revision `abc` fails
with the no-changes error. -/
theorem unchanged_metadata_rejected_witness :
    cleanMetadataText "abc" (fun _ => []) "abc" =
      CleanResult.vErr "There are no changes in the metadata" :=
  unchanged_metadata_rejected strOps (fun v => ConvResult.ok v) "abc" (fun _ => []) "abc"
    (by decide) (by decide) (by decide)

/-- C4: a submitted name containing one of the reserved characters
`! : & | \` makes `EditEntityForm.clean` raise, and makes
`EntityForm.clean` raise when a domain was also submitted, both with the
illegal-characters message. -/
theorem reserved_chars_in_name_rejected (db : List (String × String)) (n d : String)
    (hill : illegalName n = true) :
    editEntityFormClean (some n) = FormCleanResult.vErr illegalNameMsg ∧
    entityFormClean db (some n) (some d) = FormCleanResult.vErr illegalNameMsg := by
  have hn : n ≠ "" := illegalName_ne_empty hill
  constructor
  · simp [editEntityFormClean, hn, hill]
  · simp [entityFormClean, hn, hill]

/-- Witness for C4: the name `a:b` is rejected by both forms. -/
theorem reserved_chars_in_name_rejected_witness :
    editEntityFormClean (some "a:b") = FormCleanResult.vErr illegalNameMsg ∧
    entityFormClean [] (some "a:b") (some "example.org") =
      FormCleanResult.vErr illegalNameMsg :=
  reserved_chars_in_name_rejected [] "a:b" "example.org" (by decide)

/-- C5: when exactly one existing entity has the submitted `(name,
domain)` pair (the data-model invariant makes more than one impossible)
and the name passes the reserved-character loop, `EntityForm.clean`
raises the duplicate-entity `ValidationError`. -/
theorem duplicate_name_domain_rejected (db : List (String × String)) (n d : String)
    (hn : n ≠ "") (hleg : illegalName n = false)
    (hdup : (db.filter (fun p => p.1 = n && p.2 = d)).length = 1) :
    entityFormClean db (some n) (some d) =
      FormCleanResult.vErr "There is already an entity with that name for that domain" := by
  simp [entityFormClean, hn, hleg, hdup]

/-- Witness for C5: re-submitting the pair of the one existing entity is
rejected as a duplicate. -/
theorem duplicate_name_domain_rejected_witness :
    entityFormClean [("sp", "example.org")] (some "sp") (some "example.org") =
      FormCleanResult.vErr "There is already an entity with that name for that domain" :=
  duplicate_name_domain_rejected [("sp", "example.org")] "sp" "example.org"
    (by decide) (by decide) (by decide)

/-- C6: when the external validator returns a non-empty error list for
metadata that passed the emptiness and no-change checks,
`check_metadata_is_valid` attaches that list as the field error list and
deletes the field from `cleaned_data`, and `_clean_metadata_field`
returns normally (no exception), for every subclass. -/
theorem validator_errors_attached_nonfatal {α : Type} (ops : FieldOps α)
    (conv : α → ConvResult) (rev : String) (validator : String → List String) (fd : α)
    (m : String) (errs : List String)
    (hdata : ops.truthy (stripData ops fd) = true)
    (hconv : conv (stripData ops fd) = ConvResult.ok m)
    (hm : m ≠ "") (hnew : m ≠ rev)
    (herrs : validator m = errs) (hne : errs ≠ []) :
    cleanMetadataField ops conv rev validator fd =
      CleanResult.ok (stripData ops fd) ⟨false, errs, some m⟩ := by
  subst herrs
  simp [cleanMetadataField, hdata, hconv, hm, hnew, hne]

/-- Witness for C6: a pasted text the validator rejects with one error
redisplays the form with the error attached and the field value
discarded from `cleaned_data`. -/
theorem validator_errors_attached_nonfatal_witness :
    cleanMetadataText "old" (fun _ => ["bad xml"]) "new" =
      CleanResult.ok "new" ⟨false, ["bad xml"], some "new"⟩ :=
  validator_errors_attached_nonfatal strOps (fun v => ConvResult.ok v) "old"
    (fun _ => ["bad xml"]) "new" "new" ["bad xml"]
    (by decide) (by decide) (by decide) (by decide) (by decide) (by decide)

/-- C7: a response received without an exception whose status code is
not 200 makes `_fetch_metadata` raise the `ValidationError`
`Error in the response: ` followed by the code. -/
theorem non_200_response_rejected (net : String → Nat → NetOutcome)
    (dec : String → String → Option String) (url : String) (r : HTTPResponse)
    (hresp : net url CONNECTION_TIMEOUT = NetOutcome.resp r)
    (hcode : r.code ≠ 200) :
    fetchMetadata net dec url =
      FetchRes.vErr ("Error in the response: " ++ toString r.code) := by
  simp [fetchMetadata, hresp, hcode]

/-- Witness for C7: a 404 response yields the response-error message. -/
theorem non_200_response_rejected_witness :
    fetchMetadata (fun _ _ => NetOutcome.resp ⟨404, none, ""⟩)
        (fun _ s => some s) "http://example.org" =
      FetchRes.vErr ("Error in the response: " ++ toString (404 : Nat)) :=
  non_200_response_rejected (fun _ _ => NetOutcome.resp ⟨404, none, ""⟩)
    (fun _ s => some s) "http://example.org" ⟨404, none, ""⟩ rfl (by decide)

/-- C8 counterexample: a 200 response whose `content-type` header is
`text/xml; charset=bogus`, decoded with a codec table that knows
`utf-8` but not `bogus` — as Python's `str.decode` raises `LookupError`
on an unknown encoding.  That exception is neither the `KeyError` nor
the `IndexError` the surrounding clause catches, so something other than
a `ValidationError` escapes the fetch (`FetchRes.exn`), refuting the
claim that no other exception can escape. -/
theorem decode_failure_escapes_fetch :
    fetchMetadata (fun _ _ => NetOutcome.resp ⟨200, some "text/xml; charset=bogus", "<xml/>"⟩)
        (fun enc s => if enc = "utf-8" then some s else none) "http://example.org" =
      FetchRes.exn := by
  decide

/-- C8 amended: on a successful (200) response the body is decoded with
the charset parsed from the `content-type` header when that parse and
the decode succeed, and is returned raw when the header is absent or
carries no `charset=` parameter; the only way anything other than a
`ValidationError` escapes the fetch is a response whose parsed charset
makes the decode itself fail. -/
theorem response_charset_handling (net : String → Nat → NetOutcome)
    (dec : String → String → Option String) (url : String) :
    (∀ r ct enc t, net url CONNECTION_TIMEOUT = NetOutcome.resp r → r.code = 200 →
      r.contentType = some ct → parseCharset ct = some enc → dec enc r.body = some t →
      fetchMetadata net dec url = FetchRes.text t) ∧
    (∀ r, net url CONNECTION_TIMEOUT = NetOutcome.resp r → r.code = 200 →
      r.contentType = none → fetchMetadata net dec url = FetchRes.text r.body) ∧
    (∀ r ct, net url CONNECTION_TIMEOUT = NetOutcome.resp r → r.code = 200 →
      r.contentType = some ct → parseCharset ct = none →
      fetchMetadata net dec url = FetchRes.text r.body) ∧
    (fetchMetadata net dec url = FetchRes.exn →
      ∃ r ct enc, net url CONNECTION_TIMEOUT = NetOutcome.resp r ∧ r.code = 200 ∧
        r.contentType = some ct ∧ parseCharset ct = some enc ∧ dec enc r.body = none) := by
  refine ⟨?_, ?_, ?_, ?_⟩
  · intro r ct enc t hresp hcode hct hcs hdec
    simp [fetchMetadata, hresp, hcode, hct, hcs, hdec]
  · intro r hresp hcode hct
    simp [fetchMetadata, hresp, hcode, hct]
  · intro r ct hresp hcode hct hcs
    simp [fetchMetadata, hresp, hcode, hct, hcs]
  · intro hexn
    unfold fetchMetadata at hexn
    cases hnet : net url CONNECTION_TIMEOUT with
    | raise e =>
      rw [hnet] at hexn
      cases e <;> simp [handleUrlopenExc, isURLError, isHTTPError] at hexn
    | resp r =>
      rw [hnet] at hexn
      by_cases hcode : r.code = 200
      · cases hct : r.contentType with
        | none => simp [hcode, hct] at hexn
        | some ct =>
          cases hcs : parseCharset ct with
          | none => simp [hcode, hct, hcs] at hexn
          | some enc =>
            cases hdec : dec enc r.body with
            | some t => simp [hcode, hct, hcs, hdec] at hexn
            | none => exact ⟨r, ct, enc, rfl, hcode, hct, hcs, hdec⟩
      · simp [hcode] at hexn

/-- Witness for the amended C8: a 200 response with charset `utf-8` in
the header and an identity decode returns the decoded body. -/
theorem response_charset_handling_witness :
    fetchMetadata (fun _ _ => NetOutcome.resp ⟨200, some "text/xml; charset=utf-8", "<a/>"⟩)
        (fun enc s => if enc = "utf-8" then some s else none) "http://example.org" =
      FetchRes.text "<a/>" :=
  (response_charset_handling
      (fun _ _ => NetOutcome.resp ⟨200, some "text/xml; charset=utf-8", "<a/>"⟩)
      (fun enc s => if enc = "utf-8" then some s else none) "http://example.org").1
    ⟨200, some "text/xml; charset=utf-8", "<a/>"⟩ "text/xml; charset=utf-8" "utf-8" "<a/>"
    rfl rfl rfl (by decide) (by decide)

/-- The two fixed message prefixes differ, so no `URL Error:` message is
ever an `HTTP Error:` message. -/
theorem url_prefix_ne_http_prefix (a b : String) :
    "URL Error: " ++ a ≠ "HTTP Error: " ++ b := by
  intro h
  have h1 : ("URL Error: " ++ a).data.head? = ("HTTP Error: " ++ b).data.head? := by rw [h]
  rw [String.data_append, String.data_append] at h1
  have h2 : (some 'U' : Option Char) = some 'H' := h1
  simp at h2

/-- C9: in `urllib2`, `HTTPError` is a subclass of `URLError`, and the
`except urllib2.URLError` clause of `_fetch_metadata` precedes the
`except urllib2.HTTPError` clause, so the dispatch behaves exactly as if
the `HTTPError` clause were deleted: every `HTTPError` is handled by the
`URLError` clause, and no execution produces a message starting with
`HTTP Error: `. -/
theorem http_error_clause_unreachable (e : PyExc) :
    (isHTTPError e = true → isURLError e = true) ∧
    handleUrlopenExc e =
      (if isURLError e then FetchRes.vErr ("URL Error: " ++ excStr e)
       else FetchRes.retNone) ∧
    (∀ s : String, handleUrlopenExc e ≠ FetchRes.vErr ("HTTP Error: " ++ s)) := by
  refine ⟨?_, ?_, ?_⟩
  · cases e <;> simp [isHTTPError, isURLError]
  · cases e <;> simp [handleUrlopenExc, isURLError, isHTTPError]
  · intro s h
    cases e <;> simp [handleUrlopenExc, isURLError, isHTTPError, excStr] at h
    · exact url_prefix_ne_http_prefix _ _ h
    · exact url_prefix_ne_http_prefix _ _ h

/-- Witness for C9: an `HTTPError` carrying `404` is a `URLError` too
and gets the `URL Error:` message from the first clause. -/
theorem http_error_clause_unreachable_witness :
    isURLError (PyExc.httpError "404") = true ∧
    handleUrlopenExc (PyExc.httpError "404") =
      (if isURLError (PyExc.httpError "404") then
        FetchRes.vErr ("URL Error: " ++ excStr (PyExc.httpError "404"))
       else FetchRes.retNone) :=
  ⟨(http_error_clause_unreachable (PyExc.httpError "404")).1 rfl,
   (http_error_clause_unreachable (PyExc.httpError "404")).2.1⟩

/-- C10: when the external validator rejects the metadata (non-empty
error list), `_clean_metadata_field` still assigns the invalid content
to `self.metadata` and returns the cleaned field value, so a later
`get_metadata()` yields the content that failed validation rather than
`None`. -/
theorem invalid_metadata_still_staged {α : Type} (ops : FieldOps α)
    (conv : α → ConvResult) (rev : String) (validator : String → List String) (fd : α)
    (m : String)
    (hdata : ops.truthy (stripData ops fd) = true)
    (hconv : conv (stripData ops fd) = ConvResult.ok m)
    (hm : m ≠ "") (hnew : m ≠ rev) (hne : validator m ≠ []) :
    ∃ st, cleanMetadataField ops conv rev validator fd =
        CleanResult.ok (stripData ops fd) st ∧ getMetadata st = some m := by
  refine ⟨⟨false, validator m, some m⟩, ?_, rfl⟩
  simp [cleanMetadataField, hdata, hconv, hm, hnew, hne]

/-- Witness for C10: after a rejected pasted submission `bad`, the form
state still stages `bad` and `get_metadata` returns it. -/
theorem invalid_metadata_still_staged_witness :
    ∃ st, cleanMetadataText "old" (fun _ => ["schema error"]) "bad" =
        CleanResult.ok "bad" st ∧ getMetadata st = some "bad" :=
  invalid_metadata_still_staged strOps (fun v => ConvResult.ok v) "old"
    (fun _ => ["schema error"]) "bad" "bad"
    (by decide) (by decide) (by decide) (by decide) (by decide)

end Peer
